import Mathlib

/-!
Shallow embedding of the circle-survival simulation engine
(src/script.js, first script variant, which the spec identifies as the
superset of behavior). Real-valued quantities of the source (the spec's
data model calls positions, radii and times real-valued) are modelled as
rationals; the DOM, rendering and localStorage are out of scope per the
spec. Calls to the host random source are modelled as explicit inputs:
a structure field stands for one Math.random() draw, and for a random
angle the source only ever consumes its cosine and sine, so the embedding
takes those two components directly as inputs.
-/

namespace CircleSurvival

/-- Entity type tag: the className / circle.type of the source
(normal, armored, drifter, splitter, fuse). -/
inductive CType
  | normal
  | armored
  | drifter
  | splitter
  | fuse
deriving DecidableEq, Repr

/-- One circle of the entity collection, mirroring the object literal built
in spawnCircle (src/script.js lines 230-241): position, radius, growth
rate in pixels per second, clicks left to destroy, drift velocity, type
tag and the optional fuse countdown (null for non-fuse circles). -/
structure Circle where
  x : ℚ
  y : ℚ
  radius : ℚ
  growth : ℚ
  clicks : ℕ
  driftX : ℚ
  driftY : ℚ
  type : CType
  fuseTimeLeft : Option ℚ
deriving DecidableEq, Repr

/-- Math.max on the rationals of the embedding (kept as an explicit
definition so witnesses evaluate by kernel reduction). -/
def jmax (a b : ℚ) : ℚ := if a ≤ b then b else a

/-- Math.min on the rationals of the embedding. -/
def jmin (a b : ℚ) : ℚ := if a ≤ b then a else b

/-- Math.abs on the rationals of the embedding. -/
def jabs (a : ℚ) : ℚ := if a < 0 then -a else a

/-- BASE_SPAWN_INTERVAL of the source (milliseconds). -/
def BASE_SPAWN_INTERVAL : ℚ := 2000

/-- MIN_SPAWN_INTERVAL of the source (milliseconds). -/
def MIN_SPAWN_INTERVAL : ℚ := 300

/-- timeWarpConfig.interval: seconds until the next warp. -/
def timeWarpInterval : ℚ := 8

/-- timeWarpConfig.duration: seconds a warp window lasts. -/
def timeWarpDuration : ℚ := 3

/-- timeWarpConfig.factor: multiplier on the spawn interval during warp. -/
def timeWarpFactor : ℚ := 1/2

/-- The Math.random() draws spawnCircle may consume, in source order:
two position draws, the fuse / splitter / armored / drifter probability
rolls, and the cosine and sine of the random drift angle. -/
structure SpawnRand where
  posX : ℚ
  posY : ℚ
  rFuse : ℚ
  rSplit : ℚ
  rArm : ℚ
  rDrift : ℚ
  dirCos : ℚ
  dirSin : ℚ
deriving DecidableEq, Repr

/-- spawnCircle (src/script.js lines 219-301, simulation part): builds the
new circle from the current level, the play-area size and the random
draws. Levels 5+/4+ roll for fuse (25%) then splitter (30%); only when
neither special type was selected may the circle be armored (level 2+,
20%) and/or drift (level 3+, 50%, speed 40). -/
def spawnCircle (currentLevel : ℕ) (w h : ℚ) (r : SpawnRand) : Circle :=
  let initialRadius : ℚ := 15
  let c : Circle :=
    { x := r.posX * (w - initialRadius * 2) + initialRadius
      y := r.posY * (h - initialRadius * 2) + initialRadius
      radius := initialRadius
      growth := 20
      clicks := 1
      driftX := 0
      driftY := 0
      type := CType.normal
      fuseTimeLeft := none }
  if 5 ≤ currentLevel ∧ r.rFuse < 1/4 then
    { c with type := CType.fuse, fuseTimeLeft := some (7/2) }
  else if 4 ≤ currentLevel ∧ r.rSplit < 3/10 then
    { c with type := CType.splitter }
  else
    let c1 :=
      if 2 ≤ currentLevel ∧ r.rArm < 1/5 then
        { c with clicks := 2, type := CType.armored }
      else c
    if 3 ≤ currentLevel ∧ r.rDrift < 1/2 then
      { c1 with driftX := r.dirCos * 40, driftY := r.dirSin * 40,
                type := CType.drifter }
    else c1

/-- The body of the loop of handleFusePop (src/script.js lines 372-380)
applied to one neighbour: the radius is multiplied by the factor and then
floored at 5. -/
def shockRadius (factor : ℚ) (c : Circle) : Circle :=
  { c with radius := jmax (c.radius * factor) 5 }

/-- handleFusePop (src/script.js lines 372-380): every circle of the
collection other than the fuse circle (identified by its index) has its
radius multiplied by 0.8 (player pop, isGood) or 1.2 (natural explosion)
and floored at 5. Indexed recursion mirrors the identity test
c === fuseCircle of the source. -/
def handleFusePopAux (factor : ℚ) (fuseIdx : ℕ) : ℕ → List Circle → List Circle
  | _, [] => []
  | j, c :: cs =>
    (if j = fuseIdx then c else shockRadius factor c)
      :: handleFusePopAux factor fuseIdx (j + 1) cs

/-- handleFusePop entry point: factor 0.8 for a good (player) pop and 1.2
for a bad (natural) explosion. -/
def handleFusePop (isGood : Bool) (fuseIdx : ℕ) (circles : List Circle) :
    List Circle :=
  handleFusePopAux (if isGood then 4/5 else 6/5) fuseIdx 0 circles

/-- The Math.random() draws one splitter child consumes, in source order:
the cosine and sine of the placement angle on the parent boundary, the
drift probability roll, and the cosine and sine of the drift angle. -/
structure ChildRand where
  posCos : ℚ
  posSin : ℚ
  rDrift : ℚ
  driftCos : ℚ
  driftSin : ℚ
deriving DecidableEq, Repr

/-- One iteration of the loop of spawnSplitterChildren (src/script.js
lines 326-364): the child sits on the parent boundary, has radius
max(10, parent.radius / 2), growth parent.growth * 1.2, one click, and
with probability 1/2 drifts at speed 30 in a random direction. -/
def makeChild (parent : Circle) (r : ChildRand) : Circle :=
  let child : Circle :=
    { x := parent.x + r.posCos * parent.radius
      y := parent.y + r.posSin * parent.radius
      radius := jmax 10 (parent.radius / 2)
      growth := parent.growth * (6/5)
      clicks := 1
      driftX := 0
      driftY := 0
      type := CType.normal
      fuseTimeLeft := none }
  if r.rDrift < 1/2 then
    { child with driftX := r.driftCos * 30, driftY := r.driftSin * 30,
                 type := CType.drifter }
  else child

/-- spawnSplitterChildren (src/script.js lines 326-364): pushes exactly two
children built by makeChild onto the collection. -/
def spawnSplitterChildren (parent : Circle) (r1 r2 : ChildRand)
    (circles : List Circle) : List Circle :=
  circles ++ [makeChild parent r1, makeChild parent r2]

/-- The growth and drift integration at the top of the per-circle update
(src/script.js lines 419-423): radius += growth * dt, position += drift * dt. -/
def moveGrow (dt : ℚ) (c : Circle) : Circle :=
  { c with radius := c.radius + c.growth * dt
           x := c.x + c.driftX * dt
           y := c.y + c.driftY * dt }

/-- Result of the fuse-countdown branch for one circle (src/script.js
lines 425-434): either the circle survives (with a decremented countdown
when it is a fuse) or its fuse crossed zero and it pops. -/
inductive CircleStep
  | keep (c : Circle)
  | pop
deriving DecidableEq, Repr

/-- Per-circle growth, drift and fuse countdown (src/script.js
lines 419-434): after moveGrow, a fuse circle with a non-null countdown
has it decremented by dt and pops when the result is ≤ 0. -/
def stepCircle (dt : ℚ) (c : Circle) : CircleStep :=
  if (moveGrow dt c).type = CType.fuse then
    match (moveGrow dt c).fuseTimeLeft with
    | some t =>
      if t - dt ≤ 0 then CircleStep.pop
      else CircleStep.keep { moveGrow dt c with fuseTimeLeft := some (t - dt) }
    | none => CircleStep.keep (moveGrow dt c)
  else CircleStep.keep (moveGrow dt c)

/-- The wall-bounce clamp for the x axis (src/script.js lines 437-443). -/
def bounceX (w : ℚ) (c : Circle) : Circle :=
  if c.x - c.radius < 0 then { c with x := c.radius, driftX := jabs c.driftX }
  else if w < c.x + c.radius then
    { c with x := w - c.radius, driftX := -(jabs c.driftX) }
  else c

/-- The wall-bounce clamp for the y axis (src/script.js lines 444-450). -/
def bounceY (h : ℚ) (c : Circle) : Circle :=
  if c.y - c.radius < 0 then { c with y := c.radius, driftY := jabs c.driftY }
  else if h < c.y + c.radius then
    { c with y := h - c.radius, driftY := -(jabs c.driftY) }
  else c

/-- The bounce-off-walls block (src/script.js lines 436-451), entered only
for circles with a nonzero drift component. -/
def bounce (w h : ℚ) (c : Circle) : Circle :=
  if c.driftX ≠ 0 ∨ c.driftY ≠ 0 then bounceY h (bounceX w c) else c

/-- Outcome of the per-frame circle loop: either the loop ran to the end
(ok, with the final collection) or some circle reached the lethal radius
and the source returned out of update via gameOver (lethal, with the
collection as it stood at that moment). -/
inductive TickOutcome
  | ok (circles : List Circle)
  | lethal (circles : List Circle)
deriving DecidableEq, Repr

/-- The for (const circle of circles) loop of update (src/script.js
lines 418-459) with JavaScript array-iterator semantics: done holds the
part of the live array before the iterator cursor, rem the part at and
after it. A popping fuse applies the bad shockwave to every other circle
and is spliced out of the live array, which shifts the following circle
under the cursor so the iterator passes over it without processing it
(the splice-during-iteration behaviour of the source). A surviving circle
is bounced and then checked against the lethal radius
min(width, height) / 2; the first circle found at or past it ends the
loop with a lethal outcome. -/
def tickLoop (w h dt : ℚ) : List Circle → List Circle → TickOutcome
  | done, [] => TickOutcome.ok done
  | done, c :: rest =>
    match stepCircle dt c with
    | CircleStep.pop =>
      let done' := done.map (shockRadius (6/5))
      match rest with
      | [] => TickOutcome.ok done'
      | e :: rest' =>
        tickLoop w h dt (done' ++ [shockRadius (6/5) e])
          (rest'.map (shockRadius (6/5)))
    | CircleStep.keep c1 =>
      let c2 := bounce w h c1
      if jmin w h / 2 ≤ c2.radius then TickOutcome.lethal (done ++ c2 :: rest)
      else tickLoop w h dt (done ++ [c2]) rest
termination_by _ rem => rem.length
decreasing_by
  all_goals simp_all [List.length_map]
  omega

/-- Shape of the collection a tick leaves behind when its leading circle
is a fuse that pops and the remainder passes quietly: every other circle
is shocked once; the circle shifted under the iterator cursor by the
splice receives nothing further, the rest are then grown, moved and
bounced. -/
def popResult (w h dt : ℚ) : List Circle → List Circle
  | [] => []
  | e :: rs =>
    shockRadius (6/5) e ::
      rs.map (fun c => bounce w h (moveGrow dt (shockRadius (6/5) c)))

/-- The module-level mutable simulation state of the source (src/script.js
lines 33-56), without the DOM handles and frame/timeout ids: the entity
collection, the run flags, level, round timer, spawn intervals, score and
the time-warp bookkeeping. -/
structure GameState where
  circles : List Circle
  gameRunning : Bool
  paused : Bool
  currentLevel : ℕ
  timeLeft : ℚ
  baseSpawnInterval : ℚ
  spawnInterval : ℚ
  score : ℕ
  warpActive : Bool
  nextWarpAt : ℚ
  warpEndAt : ℚ
deriving DecidableEq, Repr

/-- Which branch a frame of update took: idle (not running, or paused),
running (normal frame), levelCompleted (timer expired) or gameOverEnd
(a circle reached the lethal radius). -/
inductive Phase
  | idle
  | running
  | levelCompleted
  | gameOverEnd
deriving DecidableEq, Repr

/-- The time-warp block of update (src/script.js lines 399-414), entered
for levels 6 and above: when no warp is active and the elapsed round time
has reached nextWarpAt, the warp starts, warpEndAt becomes
nextWarpAt + duration and the effective spawn interval becomes
base * factor; when a warp is active and the elapsed time has reached
warpEndAt, it ends, the interval is restored to the base and nextWarpAt
advances by the warp interval. -/
def warpStep (elapsed : ℚ) (s : GameState) : GameState :=
  if 6 ≤ s.currentLevel then
    if s.warpActive = false ∧ s.nextWarpAt ≤ elapsed then
      { s with warpActive := true
               warpEndAt := s.nextWarpAt + timeWarpDuration
               spawnInterval := s.baseSpawnInterval * timeWarpFactor }
    else if s.warpActive = true ∧ s.warpEndAt ≤ elapsed then
      { s with warpActive := false
               spawnInterval := s.baseSpawnInterval
               nextWarpAt := s.nextWarpAt + timeWarpInterval }
    else s
  else s

/-- levelComplete (src/script.js lines 481-511), state part: circles are
cleared, the level advances, timer and score reset, the spawn intervals
are recomputed from the new level and the warp state resets. -/
def levelComplete (s : GameState) : GameState :=
  let newLevel := s.currentLevel + 1
  { s with circles := []
           currentLevel := newLevel
           timeLeft := 30
           score := 0
           baseSpawnInterval := BASE_SPAWN_INTERVAL * (9/10) ^ (newLevel - 1)
           spawnInterval := BASE_SPAWN_INTERVAL * (9/10) ^ (newLevel - 1)
           warpActive := false
           nextWarpAt := timeWarpInterval
           warpEndAt := 0 }

/-- gameOver (src/script.js lines 514-526), state part: the run stops and
the circles are removed. -/
def gameOver (s : GameState) : GameState :=
  { s with gameRunning := false, circles := [] }

/-- update (src/script.js lines 383-462), one frame with the given
delta-time in seconds and the current play-area size: nothing happens
when not running or paused; the round timer is decremented and its expiry
completes the level; otherwise the warp block runs on the elapsed time
and the circle loop runs, a lethal circle ending the round. -/
def updateFrame (w h dt : ℚ) (s : GameState) : GameState × Phase :=
  if s.gameRunning = false then (s, Phase.idle)
  else if s.paused = true then (s, Phase.idle)
  else
    let timeLeft := s.timeLeft - dt
    if timeLeft ≤ 0 then (levelComplete s, Phase.levelCompleted)
    else
      let elapsed := 30 - timeLeft
      let s2 := warpStep elapsed { s with timeLeft := timeLeft }
      match tickLoop w h dt [] s2.circles with
      | TickOutcome.lethal _ => (gameOver s2, Phase.gameOverEnd)
      | TickOutcome.ok out => ({ s2 with circles := out }, Phase.running)

/-- The resumeBtn click handler (src/script.js lines 83-95), state part:
a no-op unless the game is running, otherwise it toggles the paused flag
(the timer and frame bookkeeping it also touches live outside the
simulation state). -/
def pauseToggle (s : GameState) : GameState :=
  if s.gameRunning = false then s else { s with paused := !s.paused }

/-- The setTimeout callback of spawnNext (src/script.js lines 206-216):
a circle spawns, the base interval is multiplied by the acceleration 0.9
and floored at MIN_SPAWN_INTERVAL, and the effective interval used to
schedule the next spawn is the base halved while a warp is active. -/
def spawnTimerFire (w h : ℚ) (r : SpawnRand) (s : GameState) : GameState :=
  let s1 := { s with circles := s.circles ++ [spawnCircle s.currentLevel w h r] }
  let b := jmax (s1.baseSpawnInterval * (9/10)) MIN_SPAWN_INTERVAL
  { s1 with baseSpawnInterval := b
            spawnInterval := if s1.warpActive then b * timeWarpFactor else b }

/-- The circle click handler (src/script.js lines 278-298) restricted to
the collection: a hit on the circle at the given index decrements its
clicks when more than one remains; otherwise a splitter pushes its two
children before the parent is spliced out, a fuse applies the good
shockwave to every other circle before it is spliced out, and any other
circle is simply spliced out. An index outside the collection is a no-op
(the entity was already gone). -/
def clickCircle (i : ℕ) (r1 r2 : ChildRand) (circles : List Circle) :
    List Circle :=
  match circles[i]? with
  | none => circles
  | some c =>
    if 1 < c.clicks then circles.set i { c with clicks := c.clicks - 1 }
    else if c.type = CType.splitter then
      (spawnSplitterChildren c r1 r2 circles).eraseIdx i
    else if c.type = CType.fuse then
      (handleFusePop true i circles).eraseIdx i
    else circles.eraseIdx i

/-- The operations that mutate the entity collection while a round runs:
a spawn-timer firing, a frame tick, and a player click on the circle at
an index. -/
inductive GOp
  | spawnOp (level : ℕ) (w h : ℚ) (r : SpawnRand)
  | tickOp (w h dt : ℚ)
  | clickOp (i : ℕ) (r1 r2 : ChildRand)
deriving Repr

/-- Effect of one operation on the entity collection: a spawn pushes the
new circle, a tick runs the update loop (a lethal outcome clears the
collection, as gameOver does), a click runs the click handler. -/
def applyOp (op : GOp) (cs : List Circle) : List Circle :=
  match op with
  | GOp.spawnOp level w h r => cs ++ [spawnCircle level w h r]
  | GOp.tickOp w h dt =>
    match tickLoop w h dt [] cs with
    | TickOutcome.ok out => out
    | TickOutcome.lethal _ => []
  | GOp.clickOp i r1 r2 => clickCircle i r1 r2 cs

/-- A sequence of operations applied in order. -/
def applyOps (ops : List GOp) (cs : List Circle) : List Circle :=
  ops.foldl (fun acc op => applyOp op acc) cs

/-- A tick operation carries a nonnegative delta-time; other operations
carry no time at all. -/
def GOp.dtNonneg : GOp → Prop
  | GOp.tickOp _ _ dt => 0 ≤ dt
  | _ => True

/-- The radius and growth bounds the invariant claims speak about: a live
circle has radius at least 5 and a nonnegative growth rate. -/
def SafeCircle (c : Circle) : Prop :=
  5 ≤ c.radius ∧ 0 ≤ c.growth

instance : DecidablePred SafeCircle := fun c => by
  unfold SafeCircle; infer_instance

instance (op : GOp) : Decidable op.dtNonneg := by
  unfold GOp.dtNonneg
  cases op <;> infer_instance

/-- What the spec asserts of one splitter child (spec 4.3 and 8): the
floor rule for the radius, the inherited growth, one click, a coin-flip
drift at speed 30 and a normal/drifter type only. Written from the spec's
words to compare against makeChild. -/
def childSpec (parent : Circle) (r : ChildRand) (c : Circle) : Prop :=
  c.radius = jmax 10 (parent.radius / 2) ∧
  10 ≤ c.radius ∧
  (20 ≤ parent.radius → c.radius = parent.radius / 2) ∧
  c.growth = parent.growth * (6/5) ∧
  c.clicks = 1 ∧
  c.fuseTimeLeft = none ∧
  (r.rDrift < 1/2 →
    c.type = CType.drifter ∧ c.driftX = r.driftCos * 30 ∧
      c.driftY = r.driftSin * 30) ∧
  (¬ r.rDrift < 1/2 →
    c.type = CType.normal ∧ c.driftX = 0 ∧ c.driftY = 0) ∧
  (c.type = CType.normal ∨ c.type = CType.drifter)

/-- A stationary normal circle as freshly spawned, placed mid-area. -/
def cNormal : Circle :=
  { x := 50, y := 50, radius := 15, growth := 20, clicks := 1,
    driftX := 0, driftY := 0, type := CType.normal, fuseTimeLeft := none }

/-- A fuse circle whose countdown is about to cross zero. -/
def cFuseQuick : Circle :=
  { x := 20, y := 20, radius := 15, growth := 20, clicks := 1,
    driftX := 0, driftY := 0, type := CType.fuse, fuseTimeLeft := some (1/10) }

/-- A fuse circle with a twentieth of a second left. -/
def cFuseShort : Circle :=
  { x := 20, y := 20, radius := 15, growth := 20, clicks := 1,
    driftX := 0, driftY := 0, type := CType.fuse, fuseTimeLeft := some (1/20) }

/-- A normal circle whose radius is close to the lethal threshold of a
100 x 100 play area. -/
def cBig : Circle :=
  { x := 50, y := 50, radius := 41, growth := 20, clicks := 1,
    driftX := 0, driftY := 0, type := CType.normal, fuseTimeLeft := none }

/-- A splitter circle still at its spawn radius of 15. -/
def cSplitSmall : Circle :=
  { x := 100, y := 100, radius := 15, growth := 20, clicks := 1,
    driftX := 0, driftY := 0, type := CType.splitter, fuseTimeLeft := none }

/-- A running, unpaused round at the start of the given level with the
given circles, spawn timing still at its level-1 value. -/
def mkRunning (cs : List Circle) (lvl : ℕ) : GameState :=
  { circles := cs, gameRunning := true, paused := false, currentLevel := lvl,
    timeLeft := 30, baseSpawnInterval := 2000, spawnInterval := 2000,
    score := 0, warpActive := false, nextWarpAt := 8, warpEndAt := 0 }

/-- Random draws that select no special type and no modifier. -/
def plainRand : SpawnRand :=
  { posX := 0, posY := 0, rFuse := 1, rSplit := 1, rArm := 1, rDrift := 1,
    dirCos := 1, dirSin := 0 }

/-- A level-6 round inside a warp window with the base interval still at
its starting value. -/
def warpRunning6 : GameState :=
  { circles := [], gameRunning := true, paused := false, currentLevel := 6,
    timeLeft := 30, baseSpawnInterval := 2000, spawnInterval := 1000,
    score := 0, warpActive := true, nextWarpAt := 8, warpEndAt := 3 }

/-- One spawn-timer firing at a fixed play-area size with plain draws. -/
def fire0 (s : GameState) : GameState := spawnTimerFire 800 600 plainRand s

/-- A level-6 running state one frame before its first warp window. -/
def preWarpState : GameState :=
  { circles := [], gameRunning := true, paused := false, currentLevel := 6,
    timeLeft := 22, baseSpawnInterval := 1000, spawnInterval := 1000,
    score := 0, warpActive := false, nextWarpAt := 8, warpEndAt := 0 }

/-! Basic facts about the per-circle transformations. -/

theorem le_jmax_left (a b : ℚ) : a ≤ jmax a b := by
  unfold jmax; split <;> simp_all

theorem le_jmax_right (a b : ℚ) : b ≤ jmax a b := by
  unfold jmax; split <;> simp_all [le_of_not_le]

theorem shockRadius_radius (f : ℚ) (c : Circle) :
    (shockRadius f c).radius = jmax (c.radius * f) 5 := rfl

theorem shockRadius_growth (f : ℚ) (c : Circle) :
    (shockRadius f c).growth = c.growth := rfl

theorem shockRadius_type (f : ℚ) (c : Circle) :
    (shockRadius f c).type = c.type := rfl

theorem moveGrow_radius (dt : ℚ) (c : Circle) :
    (moveGrow dt c).radius = c.radius + c.growth * dt := rfl

theorem moveGrow_growth (dt : ℚ) (c : Circle) :
    (moveGrow dt c).growth = c.growth := rfl

theorem moveGrow_type (dt : ℚ) (c : Circle) :
    (moveGrow dt c).type = c.type := rfl

theorem bounceX_radius (w : ℚ) (c : Circle) :
    (bounceX w c).radius = c.radius := by
  unfold bounceX; split <;> [rfl; split <;> rfl]

theorem bounceY_radius (h : ℚ) (c : Circle) :
    (bounceY h c).radius = c.radius := by
  unfold bounceY; split <;> [rfl; split <;> rfl]

theorem bounce_radius (w h : ℚ) (c : Circle) :
    (bounce w h c).radius = c.radius := by
  unfold bounce; split
  · rw [bounceY_radius, bounceX_radius]
  · rfl

theorem bounceX_growth (w : ℚ) (c : Circle) :
    (bounceX w c).growth = c.growth := by
  unfold bounceX; split <;> [rfl; split <;> rfl]

theorem bounceY_growth (h : ℚ) (c : Circle) :
    (bounceY h c).growth = c.growth := by
  unfold bounceY; split <;> [rfl; split <;> rfl]

theorem bounce_growth (w h : ℚ) (c : Circle) :
    (bounce w h c).growth = c.growth := by
  unfold bounce; split
  · rw [bounceY_growth, bounceX_growth]
  · rfl

theorem moveGrow_fuseTimeLeft (dt : ℚ) (c : Circle) :
    (moveGrow dt c).fuseTimeLeft = c.fuseTimeLeft := rfl

/-- A circle that pops in stepCircle is a fuse circle. -/
theorem stepCircle_pop_type {dt : ℚ} {c : Circle}
    (h : stepCircle dt c = CircleStep.pop) : c.type = CType.fuse := by
  unfold stepCircle at h
  rw [moveGrow_type] at h
  by_cases hf : c.type = CType.fuse
  · exact hf
  · simp [hf] at h

/-- A non-fuse circle survives stepCircle as its moveGrow image. -/
theorem stepCircle_ne_fuse {dt : ℚ} {c : Circle}
    (h : c.type ≠ CType.fuse) :
    stepCircle dt c = CircleStep.keep (moveGrow dt c) := by
  unfold stepCircle
  rw [moveGrow_type]
  simp [h]

/-- Whatever stepCircle keeps has the grown radius and the same growth and
type as the circle it came from. -/
theorem stepCircle_keep_inv {dt : ℚ} {c c1 : Circle}
    (h : stepCircle dt c = CircleStep.keep c1) :
    c1.radius = c.radius + c.growth * dt ∧ c1.growth = c.growth ∧
      c1.type = c.type := by
  unfold stepCircle at h
  split at h
  · split at h
    · split at h
      · exact absurd h (by simp)
      · simp only [CircleStep.keep.injEq] at h
        subst h
        exact ⟨moveGrow_radius dt c, moveGrow_growth dt c, moveGrow_type dt c⟩
    · simp only [CircleStep.keep.injEq] at h
      subst h
      exact ⟨moveGrow_radius dt c, moveGrow_growth dt c, moveGrow_type dt c⟩
  · simp only [CircleStep.keep.injEq] at h
    subst h
    exact ⟨moveGrow_radius dt c, moveGrow_growth dt c, moveGrow_type dt c⟩

/-! Unfolding equations of the tick loop. -/

theorem tickLoop_nil (w h dt : ℚ) (done : List Circle) :
    tickLoop w h dt done [] = TickOutcome.ok done := by
  rw [tickLoop]

theorem tickLoop_cons_pop (w h dt : ℚ) (done : List Circle) (c : Circle)
    (rest : List Circle) (hstep : stepCircle dt c = CircleStep.pop) :
    tickLoop w h dt done (c :: rest) =
      match rest with
      | [] => TickOutcome.ok (done.map (shockRadius (6/5)))
      | e :: rest' =>
        tickLoop w h dt (done.map (shockRadius (6/5)) ++ [shockRadius (6/5) e])
          (rest'.map (shockRadius (6/5))) := by
  rw [tickLoop, hstep]

theorem tickLoop_pop_nil (w h dt : ℚ) (done : List Circle) (c : Circle)
    (hstep : stepCircle dt c = CircleStep.pop) :
    tickLoop w h dt done [c] = TickOutcome.ok (done.map (shockRadius (6/5))) := by
  rw [tickLoop, hstep]

theorem tickLoop_pop_cons (w h dt : ℚ) (done : List Circle) (c e : Circle)
    (rest' : List Circle) (hstep : stepCircle dt c = CircleStep.pop) :
    tickLoop w h dt done (c :: e :: rest') =
      tickLoop w h dt (done.map (shockRadius (6/5)) ++ [shockRadius (6/5) e])
        (rest'.map (shockRadius (6/5))) := by
  rw [tickLoop, hstep]

theorem tickLoop_cons_keep (w h dt : ℚ) (done : List Circle) (c c1 : Circle)
    (rest : List Circle) (hstep : stepCircle dt c = CircleStep.keep c1) :
    tickLoop w h dt done (c :: rest) =
      (if jmin w h / 2 ≤ (bounce w h c1).radius then
        TickOutcome.lethal (done ++ bounce w h c1 :: rest)
      else tickLoop w h dt (done ++ [bounce w h c1]) rest) := by
  rw [tickLoop, hstep]

/-! The lethal check of the loop. -/

/-- When the loop ends a round, the collection it leaves holds a circle at
or past the lethal radius (the circle the source called gameOver on). -/
theorem tickLoop_lethal_mem (w h dt : ℚ) :
    ∀ (n : ℕ) (rem done out : List Circle), rem.length ≤ n →
      tickLoop w h dt done rem = TickOutcome.lethal out →
      ∃ c ∈ out, jmin w h / 2 ≤ c.radius := by
  intro n
  induction n with
  | zero =>
    intro rem done out hlen heq
    have hnil : rem = [] := List.length_eq_zero.mp (Nat.le_zero.mp hlen)
    subst hnil
    rw [tickLoop_nil] at heq
    exact absurd heq (by simp)
  | succ n ih =>
    intro rem done out hlen heq
    match rem with
    | [] =>
      rw [tickLoop_nil] at heq
      exact absurd heq (by simp)
    | c :: rest =>
      cases hstep : stepCircle dt c with
      | pop =>
        rw [tickLoop_cons_pop w h dt done c rest hstep] at heq
        match rest with
        | [] => exact absurd heq (by simp)
        | e :: rest' =>
          simp only [List.length_cons] at hlen
          exact ih (rest'.map (shockRadius (6/5))) _ out
            (by simp only [List.length_map]; omega) heq
      | keep c1 =>
        rw [tickLoop_cons_keep w h dt done c c1 rest hstep] at heq
        by_cases hc : jmin w h / 2 ≤ (bounce w h c1).radius
        · rw [if_pos hc] at heq
          refine ⟨bounce w h c1, ?_, hc⟩
          have hout : done ++ bounce w h c1 :: rest = out := by injection heq
          rw [← hout]
          simp
        · rw [if_neg hc] at heq
          simp only [List.length_cons] at hlen
          exact ih rest _ out (by omega) heq

/-- When the loop runs to the end over a collection with no fuse circle,
every circle it leaves is strictly below the lethal radius. -/
theorem tickLoop_ok_below (w h dt : ℚ) :
    ∀ (rem done out : List Circle),
      (∀ c ∈ done, c.radius < jmin w h / 2) →
      (∀ c ∈ rem, c.type ≠ CType.fuse) →
      tickLoop w h dt done rem = TickOutcome.ok out →
      ∀ c ∈ out, c.radius < jmin w h / 2 := by
  intro rem
  induction rem with
  | nil =>
    intro done out hdone _ heq
    rw [tickLoop_nil] at heq
    have hout : done = out := by injection heq
    rw [← hout]
    exact hdone
  | cons c rest ih =>
    intro done out hdone hnf heq
    have hcnf : c.type ≠ CType.fuse := hnf c (by simp)
    rw [tickLoop_cons_keep w h dt done c (moveGrow dt c) rest
      (stepCircle_ne_fuse hcnf)] at heq
    by_cases hc : jmin w h / 2 ≤ (bounce w h (moveGrow dt c)).radius
    · rw [if_pos hc] at heq
      exact absurd heq (by simp)
    · rw [if_neg hc] at heq
      refine ih (done ++ [bounce w h (moveGrow dt c)]) out ?_ ?_ heq
      · intro d hd
        rcases List.mem_append.mp hd with hd | hd
        · exact hdone d hd
        · rw [List.mem_singleton.mp hd]
          exact lt_of_not_le hc
      · intro d hd
        exact hnf d (by simp [hd])

/-- Over a fuse-free collection in which no circle grows to the lethal
radius this tick, the loop is exactly: grow and move every circle, bounce
it, and keep them all in order. -/
theorem tickLoop_no_fuse_eq (w h dt : ℚ) :
    ∀ (rem done : List Circle),
      (∀ c ∈ rem, c.type ≠ CType.fuse) →
      (∀ c ∈ rem, (moveGrow dt c).radius < jmin w h / 2) →
      tickLoop w h dt done rem =
        TickOutcome.ok
          (done ++ rem.map (fun c => bounce w h (moveGrow dt c))) := by
  intro rem
  induction rem with
  | nil =>
    intro done _ _
    simp [tickLoop_nil]
  | cons c rest ih =>
    intro done hnf hlt
    have hcnf : c.type ≠ CType.fuse := hnf c (by simp)
    rw [tickLoop_cons_keep w h dt done c (moveGrow dt c) rest
      (stepCircle_ne_fuse hcnf)]
    have hrad : (bounce w h (moveGrow dt c)).radius < jmin w h / 2 := by
      rw [bounce_radius]
      exact hlt c (by simp)
    rw [if_neg (not_le.mpr hrad)]
    rw [ih (done ++ [bounce w h (moveGrow dt c)])
      (fun d hd => hnf d (by simp [hd])) (fun d hd => hlt d (by simp [hd]))]
    simp

/-- Processing a fuse-free, sub-lethal prefix just moves it — grown,
moved and bounced — onto the processed side, leaving the loop to continue
on the remainder. -/
theorem tickLoop_quiet_segment (w h dt : ℚ) :
    ∀ (pre done rest : List Circle),
      (∀ c ∈ pre, c.type ≠ CType.fuse) →
      (∀ c ∈ pre, (moveGrow dt c).radius < jmin w h / 2) →
      tickLoop w h dt done (pre ++ rest) =
        tickLoop w h dt
          (done ++ pre.map (fun c => bounce w h (moveGrow dt c))) rest := by
  intro pre
  induction pre with
  | nil =>
    intro done rest _ _
    simp
  | cons c ps ih =>
    intro done rest hnf hlt
    have hcnf : c.type ≠ CType.fuse := hnf c (by simp)
    rw [List.cons_append]
    rw [tickLoop_cons_keep w h dt done c (moveGrow dt c) (ps ++ rest)
      (stepCircle_ne_fuse hcnf)]
    have hrad : (bounce w h (moveGrow dt c)).radius < jmin w h / 2 := by
      rw [bounce_radius]
      exact hlt c (by simp)
    rw [if_neg (not_le.mpr hrad)]
    rw [ih (done ++ [bounce w h (moveGrow dt c)]) rest
      (fun d hd => hnf d (by simp [hd])) (fun d hd => hlt d (by simp [hd]))]
    simp

/-- popResult keeps exactly the circles it was given: one per survivor. -/
theorem popResult_length (w h dt : ℚ) (l : List Circle) :
    (popResult w h dt l).length = l.length := by
  cases l with
  | nil => rfl
  | cons e rs => simp [popResult]

/-! Preservation of the radius and growth bounds. -/

theorem safe_shockRadius {c : Circle} (f : ℚ) (hs : SafeCircle c) :
    SafeCircle (shockRadius f c) := by
  refine ⟨?_, ?_⟩
  · rw [shockRadius_radius]
    exact le_jmax_right _ _
  · rw [shockRadius_growth]
    exact hs.2

theorem safe_bounce {c : Circle} (w h : ℚ) (hs : SafeCircle c) :
    SafeCircle (bounce w h c) := by
  refine ⟨?_, ?_⟩
  · rw [bounce_radius]; exact hs.1
  · rw [bounce_growth]; exact hs.2

theorem safe_keep {dt : ℚ} {c c1 : Circle} (hdt : 0 ≤ dt)
    (hk : stepCircle dt c = CircleStep.keep c1) (hs : SafeCircle c) :
    SafeCircle c1 := by
  obtain ⟨hr, hg, _⟩ := stepCircle_keep_inv hk
  refine ⟨?_, ?_⟩
  · rw [hr]
    have : 0 ≤ c.growth * dt := mul_nonneg hs.2 hdt
    linarith [hs.1]
  · rw [hg]; exact hs.2

/-- A tick with a nonnegative delta-time keeps every surviving circle at
radius at least 5 with nonnegative growth. -/
theorem tickLoop_safe (w h dt : ℚ) (hdt : 0 ≤ dt) :
    ∀ (n : ℕ) (rem done out : List Circle), rem.length ≤ n →
      (∀ c ∈ done, SafeCircle c) → (∀ c ∈ rem, SafeCircle c) →
      tickLoop w h dt done rem = TickOutcome.ok out →
      ∀ c ∈ out, SafeCircle c := by
  intro n
  induction n with
  | zero =>
    intro rem done out hlen hdone _ heq
    have hnil : rem = [] := List.length_eq_zero.mp (Nat.le_zero.mp hlen)
    subst hnil
    rw [tickLoop_nil] at heq
    have hout : done = out := by injection heq
    rw [← hout]
    exact hdone
  | succ n ih =>
    intro rem done out hlen hdone hrem heq
    match rem with
    | [] =>
      rw [tickLoop_nil] at heq
      have hout : done = out := by injection heq
      rw [← hout]
      exact hdone
    | c :: rest =>
      cases hstep : stepCircle dt c with
      | pop =>
        rw [tickLoop_cons_pop w h dt done c rest hstep] at heq
        match rest with
        | [] =>
          have hout : done.map (shockRadius (6/5)) = out := by injection heq
          rw [← hout]
          intro d hd
          obtain ⟨d0, hd0, rfl⟩ := List.mem_map.mp hd
          exact safe_shockRadius _ (hdone d0 hd0)
        | e :: rest' =>
          simp only [List.length_cons] at hlen
          refine ih (rest'.map (shockRadius (6/5))) _ out
            (by simp only [List.length_map]; omega) ?_ ?_ heq
          · intro d hd
            rcases List.mem_append.mp hd with hd | hd
            · obtain ⟨d0, hd0, rfl⟩ := List.mem_map.mp hd
              exact safe_shockRadius _ (hdone d0 hd0)
            · rw [List.mem_singleton.mp hd]
              exact safe_shockRadius _ (hrem e (by simp))
          · intro d hd
            obtain ⟨d0, hd0, rfl⟩ := List.mem_map.mp hd
            exact safe_shockRadius _ (hrem d0 (by simp [hd0]))
      | keep c1 =>
        rw [tickLoop_cons_keep w h dt done c c1 rest hstep] at heq
        by_cases hc : jmin w h / 2 ≤ (bounce w h c1).radius
        · rw [if_pos hc] at heq
          exact absurd heq (by simp)
        · rw [if_neg hc] at heq
          simp only [List.length_cons] at hlen
          refine ih rest _ out (by omega) ?_
            (fun d hd => hrem d (by simp [hd])) heq
          intro d hd
          rcases List.mem_append.mp hd with hd | hd
          · exact hdone d hd
          · rw [List.mem_singleton.mp hd]
            exact safe_bounce w h (safe_keep hdt hstep (hrem c (by simp)))

theorem spawnCircle_radius (l : ℕ) (w h : ℚ) (r : SpawnRand) :
    (spawnCircle l w h r).radius = 15 := by
  unfold spawnCircle
  split_ifs <;> rfl

theorem spawnCircle_growth (l : ℕ) (w h : ℚ) (r : SpawnRand) :
    (spawnCircle l w h r).growth = 20 := by
  unfold spawnCircle
  split_ifs <;> rfl

theorem safe_spawnCircle (l : ℕ) (w h : ℚ) (r : SpawnRand) :
    SafeCircle (spawnCircle l w h r) := by
  refine ⟨?_, ?_⟩
  · rw [spawnCircle_radius]; norm_num
  · rw [spawnCircle_growth]; norm_num

theorem makeChild_radius (p : Circle) (r : ChildRand) :
    (makeChild p r).radius = jmax 10 (p.radius / 2) := by
  unfold makeChild
  split_ifs <;> rfl

theorem makeChild_growth (p : Circle) (r : ChildRand) :
    (makeChild p r).growth = p.growth * (6/5) := by
  unfold makeChild
  split_ifs <;> rfl

theorem makeChild_clicks (p : Circle) (r : ChildRand) :
    (makeChild p r).clicks = 1 := by
  unfold makeChild
  split_ifs <;> rfl

theorem makeChild_fuseTimeLeft (p : Circle) (r : ChildRand) :
    (makeChild p r).fuseTimeLeft = none := by
  unfold makeChild
  split_ifs <;> rfl

theorem safe_makeChild {p : Circle} (r : ChildRand) (hp : SafeCircle p) :
    SafeCircle (makeChild p r) := by
  refine ⟨?_, ?_⟩
  · rw [makeChild_radius]
    calc (5:ℚ) ≤ 10 := by norm_num
    _ ≤ jmax 10 (p.radius / 2) := le_jmax_left _ _
  · rw [makeChild_growth]
    exact mul_nonneg hp.2 (by norm_num)

theorem safe_handleFusePopAux (f : ℚ) (i : ℕ) :
    ∀ (cs : List Circle) (j : ℕ), (∀ c ∈ cs, SafeCircle c) →
      ∀ c ∈ handleFusePopAux f i j cs, SafeCircle c := by
  intro cs
  induction cs with
  | nil =>
    intro j _ c hc
    simp [handleFusePopAux] at hc
  | cons d rest ih =>
    intro j hcs c hc
    rw [handleFusePopAux] at hc
    rcases List.mem_cons.mp hc with hc | hc
    · subst hc
      split
      · exact hcs d (by simp)
      · exact safe_shockRadius _ (hcs d (by simp))
    · exact ih (j + 1) (fun e he => hcs e (by simp [he])) c hc

theorem safe_clickCircle {cs : List Circle} (i : ℕ) (r1 r2 : ChildRand)
    (hcs : ∀ c ∈ cs, SafeCircle c) :
    ∀ c ∈ clickCircle i r1 r2 cs, SafeCircle c := by
  intro c hc
  unfold clickCircle at hc
  split at hc
  · exact hcs c hc
  next c0 hget =>
    have hc0 : c0 ∈ cs := by
      obtain ⟨hlt, heq⟩ := List.getElem?_eq_some_iff.mp hget
      rw [← heq]
      exact List.getElem_mem hlt
    split_ifs at hc with h1 h2 h3
    · rcases List.mem_or_eq_of_mem_set hc with hc | hc
      · exact hcs c hc
      · subst hc
        exact ⟨(hcs c0 hc0).1, (hcs c0 hc0).2⟩
    · have hc' := List.mem_of_mem_eraseIdx hc
      unfold spawnSplitterChildren at hc'
      rcases List.mem_append.mp hc' with hc' | hc'
      · exact hcs c hc'
      · rcases List.mem_cons.mp hc' with hc' | hc'
        · subst hc'
          exact safe_makeChild r1 (hcs c0 hc0)
        · rw [List.mem_singleton.mp hc']
          exact safe_makeChild r2 (hcs c0 hc0)
    · have hc' := List.mem_of_mem_eraseIdx hc
      exact safe_handleFusePopAux _ i cs 0 hcs c hc'
    · exact hcs c (List.mem_of_mem_eraseIdx hc)

theorem safe_applyOp {cs : List Circle} {op : GOp} (hdt : op.dtNonneg)
    (hcs : ∀ c ∈ cs, SafeCircle c) :
    ∀ c ∈ applyOp op cs, SafeCircle c := by
  match op with
  | GOp.spawnOp level w h r =>
    intro c hc
    simp only [applyOp] at hc
    rcases List.mem_append.mp hc with hc | hc
    · exact hcs c hc
    · rw [List.mem_singleton.mp hc]
      exact safe_spawnCircle level w h r
  | GOp.tickOp w h dt =>
    intro c hc
    simp only [applyOp] at hc
    split at hc
    next out hloop =>
      exact tickLoop_safe w h dt hdt cs.length cs [] out le_rfl
        (by simp) hcs hloop c hc
    next out hloop => simp at hc
  | GOp.clickOp i r1 r2 =>
    intro c hc
    simp only [applyOp] at hc
    exact safe_clickCircle i r1 r2 hcs c hc

theorem safe_applyOps {ops : List GOp} :
    ∀ {cs : List Circle}, (∀ op ∈ ops, op.dtNonneg) →
      (∀ c ∈ cs, SafeCircle c) →
      ∀ c ∈ applyOps ops cs, SafeCircle c := by
  induction ops with
  | nil =>
    intro cs _ hcs
    exact hcs
  | cons op rest ih =>
    intro cs hops hcs
    unfold applyOps
    rw [List.foldl_cons]
    exact ih (fun o ho => hops o (by simp [ho]))
      (safe_applyOp (hops op (by simp)) hcs)

/-! Frame facts about the warp block and the fuse pop. -/

theorem warpStep_circles (e : ℚ) (s : GameState) :
    (warpStep e s).circles = s.circles := by
  unfold warpStep
  split_ifs <;> rfl

theorem warpStep_score (e : ℚ) (s : GameState) :
    (warpStep e s).score = s.score := by
  unfold warpStep
  split_ifs <;> rfl

theorem warpStep_baseSpawnInterval (e : ℚ) (s : GameState) :
    (warpStep e s).baseSpawnInterval = s.baseSpawnInterval := by
  unfold warpStep
  split_ifs <;> rfl

theorem warpStep_currentLevel (e : ℚ) (s : GameState) :
    (warpStep e s).currentLevel = s.currentLevel := by
  unfold warpStep
  split_ifs <;> rfl

/-- A fuse circle whose decremented countdown is at or below zero pops. -/
theorem stepCircle_pop_of {dt t : ℚ} {f : Circle} (hft : f.type = CType.fuse)
    (hfl : f.fuseTimeLeft = some t) (hpop : t - dt ≤ 0) :
    stepCircle dt f = CircleStep.pop := by
  unfold stepCircle
  rw [moveGrow_type, moveGrow_fuseTimeLeft, hft, hfl]
  simp [hpop]

/-- makeChild satisfies the per-child specification. -/
theorem childSpec_makeChild (p : Circle) (r : ChildRand) :
    childSpec p r (makeChild p r) := by
  unfold childSpec
  refine ⟨makeChild_radius p r, ?_, ?_, makeChild_growth p r,
    makeChild_clicks p r, makeChild_fuseTimeLeft p r, ?_, ?_, ?_⟩
  · rw [makeChild_radius]
    exact le_jmax_left _ _
  · intro h20
    rw [makeChild_radius]
    unfold jmax
    rw [if_pos (by linarith)]
  · intro hd
    simp only [makeChild, if_pos hd]
    simp
  · intro hd
    simp only [makeChild, if_neg hd]
    simp
  · by_cases hd : r.rDrift < 1/2
    · right
      simp only [makeChild, if_pos hd]
    · left
      simp only [makeChild, if_neg hd]

/-! Claim theorems. -/

/-- C1 (amended): the update loop signals round failure only when the
circle it is checking — after its own growth, drift and bounce — is at or
past half the smaller play-area dimension; such a circle is in the
collection at that moment. Conversely, on a tick over a fuse-free
collection that runs to the end, every surviving circle is strictly below
the lethal radius. The unrestricted converse fails because a fuse
shockwave can push an already-checked circle past the threshold without
ending the round that tick (see the counterexample). -/
theorem C1_lethal_scan_amended (w h dt : ℚ) (cs : List Circle) :
    (∀ out, tickLoop w h dt [] cs = TickOutcome.lethal out →
      ∃ c ∈ out, jmin w h / 2 ≤ c.radius) ∧
    ((∀ c ∈ cs, c.type ≠ CType.fuse) →
      ∀ out, tickLoop w h dt [] cs = TickOutcome.ok out →
      ∀ c ∈ out, c.radius < jmin w h / 2) := by
  constructor
  · intro out heq
    exact tickLoop_lethal_mem w h dt cs.length cs [] out le_rfl heq
  · intro hnf out heq
    exact tickLoop_ok_below w h dt cs [] out (by simp) hnf heq

/-- C1 counterexample: with a near-threshold circle followed by a fuse
about to explode, the frame does not transition to GameOver although a
live circle ends the tick at radius 258/5, past the lethal radius 50 of
the 100 x 100 play area: the fuse shockwave enlarged it after its check. -/
theorem C1_counterexample :
    (updateFrame 100 100 (1/10) (mkRunning [cBig, cFuseShort] 5)).2 =
      Phase.running ∧
    ∃ c ∈ (updateFrame 100 100 (1/10) (mkRunning [cBig, cFuseShort] 5)).1.circles,
      jmin (100:ℚ) 100 / 2 ≤ c.radius := by
  norm_num [updateFrame, warpStep, tickLoop, stepCircle, moveGrow, bounce,
    mkRunning, cBig, cFuseShort, shockRadius, jmax, jmin]

/-- C2 (amended): after every spawn-timer firing the base interval is at
least the configured minimum of 300 ms, and the interval actually used to
schedule the next spawn equals the base outside a warp window but equals
base times 0.5 during one — hence it is only guaranteed to be at least
150 ms, not 300 ms, while a warp is active. -/
theorem spawnTimerFire_base (w h : ℚ) (r : SpawnRand) (s : GameState) :
    (spawnTimerFire w h r s).baseSpawnInterval =
      jmax (s.baseSpawnInterval * (9/10)) MIN_SPAWN_INTERVAL := rfl

theorem spawnTimerFire_interval (w h : ℚ) (r : SpawnRand) (s : GameState) :
    (spawnTimerFire w h r s).spawnInterval =
      (if s.warpActive = true then
        jmax (s.baseSpawnInterval * (9/10)) MIN_SPAWN_INTERVAL * timeWarpFactor
      else jmax (s.baseSpawnInterval * (9/10)) MIN_SPAWN_INTERVAL) := rfl

theorem C2_spawn_interval_amended (w h : ℚ) (r : SpawnRand) (s : GameState) :
    MIN_SPAWN_INTERVAL ≤ (spawnTimerFire w h r s).baseSpawnInterval ∧
    150 ≤ (spawnTimerFire w h r s).spawnInterval ∧
    (s.warpActive = false →
      (spawnTimerFire w h r s).spawnInterval =
        (spawnTimerFire w h r s).baseSpawnInterval ∧
      MIN_SPAWN_INTERVAL ≤ (spawnTimerFire w h r s).spawnInterval) ∧
    (s.warpActive = true →
      (spawnTimerFire w h r s).spawnInterval =
        (spawnTimerFire w h r s).baseSpawnInterval * timeWarpFactor) := by
  have h300 : MIN_SPAWN_INTERVAL = (300:ℚ) := rfl
  have hb : (300:ℚ) ≤ jmax (s.baseSpawnInterval * (9/10)) 300 :=
    le_jmax_right _ _
  rw [spawnTimerFire_base, spawnTimerFire_interval, h300]
  refine ⟨hb, ?_, ?_, ?_⟩
  · cases hw : s.warpActive with
    | false =>
      rw [if_neg Bool.false_ne_true]
      linarith
    | true =>
      rw [if_pos rfl]
      unfold timeWarpFactor
      linarith
  · intro hw
    rw [hw, if_neg Bool.false_ne_true]
    exact ⟨rfl, hb⟩
  · intro hw
    rw [hw, if_pos rfl]

/-- C2 witness: the amended statement evaluated on a level-6 state inside a
warp window. -/
theorem C2_spawn_interval_witness :
    MIN_SPAWN_INTERVAL ≤ (spawnTimerFire 800 600 plainRand warpRunning6).baseSpawnInterval ∧
    150 ≤ (spawnTimerFire 800 600 plainRand warpRunning6).spawnInterval ∧
    (warpRunning6.warpActive = false →
      (spawnTimerFire 800 600 plainRand warpRunning6).spawnInterval =
        (spawnTimerFire 800 600 plainRand warpRunning6).baseSpawnInterval ∧
      MIN_SPAWN_INTERVAL ≤ (spawnTimerFire 800 600 plainRand warpRunning6).spawnInterval) ∧
    (warpRunning6.warpActive = true →
      (spawnTimerFire 800 600 plainRand warpRunning6).spawnInterval =
        (spawnTimerFire 800 600 plainRand warpRunning6).baseSpawnInterval * timeWarpFactor) :=
  C2_spawn_interval_amended 800 600 plainRand warpRunning6

/-- C2 counterexample: starting a level-6 round inside a warp window with
the base interval at 2000 ms, twenty spawn-timer firings drive the base to
the 300 ms floor and the twentieth schedules the next spawn after only
150 ms, below the configured minimum. -/
theorem C2_counterexample :
    (fire0^[20] warpRunning6).spawnInterval = 150 ∧
    ¬ MIN_SPAWN_INTERVAL ≤ (fire0^[20] warpRunning6).spawnInterval := by
  norm_num [Function.iterate_succ_apply, fire0, spawnTimerFire, warpRunning6,
    jmax, MIN_SPAWN_INTERVAL, timeWarpFactor]

/-- C3: the failing input evaluated. A fuse with a tenth of a second left
explodes during a 0.2 s tick; the following circle is shocked to radius
18 but, because the splice shifts it under the iterator cursor, it is
never itself processed that tick: had it been processed exactly once it
would have grown to radius 22, as the second conjunct computes. -/
theorem C3_skip_demo :
    tickLoop 1000 1000 (1/5) [] [cFuseQuick, cNormal] =
      TickOutcome.ok [{ cNormal with radius := 18 }] ∧
    (bounce 1000 1000 (moveGrow (1/5) (shockRadius (6/5) cNormal))).radius =
      22 := by
  norm_num [tickLoop, stepCircle, moveGrow, bounce, cFuseQuick, cNormal,
    shockRadius, jmax, jmin]

/-- C4 (amended): a destroyed splitter produces exactly two children
appended to the collection, and each child satisfies the per-child
specification: radius exactly max(10, parent.radius / 2) — hence at least
10, and equal to parent.radius / 2 whenever the parent's radius is at
least 20 (for a smaller parent the floor puts the child radius 10 above
parent.radius / 2) — growth 1.2 times the parent's, one hit, a
50 percent drift chance and type normal or drifter only. -/
theorem C4_splitter_children_amended (parent : Circle) (r1 r2 : ChildRand)
    (cs : List Circle) :
    spawnSplitterChildren parent r1 r2 cs =
      cs ++ [makeChild parent r1, makeChild parent r2] ∧
    (spawnSplitterChildren parent r1 r2 cs).length = cs.length + 2 ∧
    childSpec parent r1 (makeChild parent r1) ∧
    childSpec parent r2 (makeChild parent r2) := by
  refine ⟨rfl, ?_, childSpec_makeChild parent r1, childSpec_makeChild parent r2⟩
  simp [spawnSplitterChildren]

/-- C4 counterexample: a splitter destroyed at its spawn radius 15 yields
children of radius 10, which is greater than parent.radius / 2 = 7.5 —
so the claimed bound radius ≤ parent.radius / 2 fails. -/
theorem C4_counterexample :
    (makeChild cSplitSmall
      { posCos := 1, posSin := 0, rDrift := 1, driftCos := 1, driftSin := 0 }).radius = 10 ∧
    ¬ (makeChild cSplitSmall
      { posCos := 1, posSin := 0, rDrift := 1, driftCos := 1, driftSin := 0 }).radius ≤
        cSplitSmall.radius / 2 := by
  norm_num [makeChild, cSplitSmall, jmax]

/-- The running branch of a frame: when the game runs unpaused and the
timer does not expire, update decrements the timer, runs the warp block
and then the circle loop. -/
theorem updateFrame_running (w h dt : ℚ) (s : GameState)
    (hrun : s.gameRunning = true) (hpause : s.paused = false)
    (htime : 0 < s.timeLeft - dt) :
    updateFrame w h dt s =
      (match tickLoop w h dt [] s.circles with
      | TickOutcome.lethal _ =>
        (gameOver (warpStep (30 - (s.timeLeft - dt))
          { s with timeLeft := s.timeLeft - dt }), Phase.gameOverEnd)
      | TickOutcome.ok out =>
        ({ warpStep (30 - (s.timeLeft - dt))
            { s with timeLeft := s.timeLeft - dt } with circles := out },
          Phase.running)) := by
  unfold updateFrame
  rw [hrun, hpause]
  rw [if_neg (by simp : ¬(true:Bool) = false)]
  rw [if_neg (by simp : ¬(false:Bool) = true)]
  rw [if_neg (not_le.mpr htime)]
  simp only [warpStep_circles]

/-- C5: a frame in which the circle at any position of the collection is
a fuse whose countdown crosses zero removes that fuse, applies the bad
shockwave exactly once to every other live circle — the already-processed
circles before it and every circle after it each pass through exactly one
shockRadius, multiplying the radius by 1.2 with a floor of 5 — leaves the
score unchanged and keeps the round running; the survivor count is
exactly the collection minus the fuse. (Per the iterator-splice skip, the
circle right after the fuse is only shocked, not grown, that tick; the
later ones are shocked and then processed.) The side conditions keep the
rest of the tick free of further fuse pops and of lethal checks, which
are other claims' business. -/
theorem C5_fuse_explosion (w h dt t : ℚ) (f : Circle)
    (pre post : List Circle) (s : GameState)
    (hrun : s.gameRunning = true) (hpause : s.paused = false)
    (htime : 0 < s.timeLeft - dt)
    (hcirc : s.circles = pre ++ f :: post)
    (hft : f.type = CType.fuse) (hfl : f.fuseTimeLeft = some t)
    (hpop : t - dt ≤ 0)
    (hpre_nf : ∀ c ∈ pre, c.type ≠ CType.fuse)
    (hpre_below : ∀ c ∈ pre, (moveGrow dt c).radius < jmin w h / 2)
    (hpost_nf : ∀ c ∈ post, c.type ≠ CType.fuse)
    (hpost_below : ∀ c ∈ post,
      jmax (c.radius * (6/5)) 5 + c.growth * dt < jmin w h / 2) :
    (updateFrame w h dt s).2 = Phase.running ∧
    (updateFrame w h dt s).1.score = s.score ∧
    (updateFrame w h dt s).1.circles =
      (pre.map (fun c => bounce w h (moveGrow dt c))).map (shockRadius (6/5))
        ++ popResult w h dt post ∧
    ((updateFrame w h dt s).1.circles).length = pre.length + post.length := by
  have hstep : stepCircle dt f = CircleStep.pop := stepCircle_pop_of hft hfl hpop
  have hloop : tickLoop w h dt [] s.circles =
      TickOutcome.ok
        ((pre.map (fun c => bounce w h (moveGrow dt c))).map (shockRadius (6/5))
          ++ popResult w h dt post) := by
    rw [hcirc]
    rw [tickLoop_quiet_segment w h dt pre [] (f :: post) hpre_nf hpre_below]
    rw [List.nil_append]
    cases post with
    | nil =>
      rw [tickLoop_pop_nil w h dt
        (pre.map (fun c => bounce w h (moveGrow dt c))) f hstep]
      simp [popResult]
    | cons e rs =>
      rw [tickLoop_pop_cons w h dt
        (pre.map (fun c => bounce w h (moveGrow dt c))) f e rs hstep]
      rw [tickLoop_no_fuse_eq w h dt (rs.map (shockRadius (6/5)))
        ((pre.map (fun c => bounce w h (moveGrow dt c))).map (shockRadius (6/5))
          ++ [shockRadius (6/5) e]) ?_ ?_]
      · simp [popResult, List.map_map, Function.comp, List.append_assoc]
      · intro c hc
        obtain ⟨c0, hc0, rfl⟩ := List.mem_map.mp hc
        rw [shockRadius_type]
        exact hpost_nf c0 (by simp [hc0])
      · intro c hc
        obtain ⟨c0, hc0, rfl⟩ := List.mem_map.mp hc
        rw [moveGrow_radius, shockRadius_radius, shockRadius_growth]
        exact hpost_below c0 (by simp [hc0])
  rw [updateFrame_running w h dt s hrun hpause htime, hloop]
  refine ⟨rfl, ?_, rfl, ?_⟩
  · show (warpStep (30 - (s.timeLeft - dt))
      { s with timeLeft := s.timeLeft - dt }).score = s.score
    rw [warpStep_score]
  · show ((pre.map (fun c => bounce w h (moveGrow dt c))).map (shockRadius (6/5))
        ++ popResult w h dt post).length = pre.length + post.length
    simp [popResult_length]

/-- C5 witness: the theorem evaluated on a level-5 round holding a normal
circle, then a fuse with a twentieth of a second left, then another
normal circle. The frame keeps running, the score stays put, the fuse is
gone (two survivors), the already-processed first circle is grown and
then shocked, and the trailing circle is shocked per popResult. -/
theorem C5_fuse_explosion_witness :
    (updateFrame 1000 1000 (1/10)
      (mkRunning [cNormal, cFuseShort, cNormal] 5)).2 = Phase.running ∧
    (updateFrame 1000 1000 (1/10)
      (mkRunning [cNormal, cFuseShort, cNormal] 5)).1.score =
      (mkRunning [cNormal, cFuseShort, cNormal] 5).score ∧
    (updateFrame 1000 1000 (1/10)
      (mkRunning [cNormal, cFuseShort, cNormal] 5)).1.circles =
      ([cNormal].map (fun c => bounce 1000 1000 (moveGrow (1/10) c))).map
          (shockRadius (6/5))
        ++ popResult 1000 1000 (1/10) [cNormal] ∧
    ((updateFrame 1000 1000 (1/10)
      (mkRunning [cNormal, cFuseShort, cNormal] 5)).1.circles).length =
      List.length [cNormal] + List.length [cNormal] :=
  C5_fuse_explosion 1000 1000 (1/10) (1/20) cFuseShort [cNormal] [cNormal]
    (mkRunning [cNormal, cFuseShort, cNormal] 5) rfl rfl
    (by norm_num [mkRunning]) rfl rfl rfl (by norm_num)
    (by simp [cNormal])
    (by
      intro c hc
      rw [List.mem_singleton.mp hc]
      norm_num [moveGrow, cNormal, jmin])
    (by simp [cNormal])
    (by
      intro c hc
      rw [List.mem_singleton.mp hc]
      norm_num [cNormal, jmax, jmin])

set_option maxHeartbeats 1000000 in
/-- C6: spawn-type selection follows the level-gated precedence of the
source. The type is fuse exactly on a fuse roll (level at least 5, under
25 percent); else splitter exactly on a splitter roll (level at least 4,
under 30 percent); otherwise drifter on a drifter roll (level at least 3,
under 50 percent) else armored on an armored roll (level at least 2,
under 20 percent) else normal. Hits are two exactly on an armored roll
when no fuse or splitter was selected, else one; only a fuse carries the
3.5 s countdown; and the circle drifts — at speed 40 in the drawn
direction — exactly when no fuse or splitter was selected and the drifter
roll succeeded, so a successful fuse or splitter roll suppresses both
modifiers. -/
theorem C6_spawn_type_selection (level : ℕ) (w h : ℚ) (r : SpawnRand) :
    (spawnCircle level w h r).type =
      (if 5 ≤ level ∧ r.rFuse < 1/4 then CType.fuse
       else if 4 ≤ level ∧ r.rSplit < 3/10 then CType.splitter
       else if 3 ≤ level ∧ r.rDrift < 1/2 then CType.drifter
       else if 2 ≤ level ∧ r.rArm < 1/5 then CType.armored
       else CType.normal) ∧
    (spawnCircle level w h r).clicks =
      (if 5 ≤ level ∧ r.rFuse < 1/4 then 1
       else if 4 ≤ level ∧ r.rSplit < 3/10 then 1
       else if 2 ≤ level ∧ r.rArm < 1/5 then 2
       else 1) ∧
    (spawnCircle level w h r).fuseTimeLeft =
      (if 5 ≤ level ∧ r.rFuse < 1/4 then some (7/2) else none) ∧
    (spawnCircle level w h r).driftX =
      (if ¬(5 ≤ level ∧ r.rFuse < 1/4) ∧ ¬(4 ≤ level ∧ r.rSplit < 3/10) ∧
          3 ≤ level ∧ r.rDrift < 1/2
       then r.dirCos * 40 else 0) ∧
    (spawnCircle level w h r).driftY =
      (if ¬(5 ≤ level ∧ r.rFuse < 1/4) ∧ ¬(4 ≤ level ∧ r.rSplit < 3/10) ∧
          3 ≤ level ∧ r.rDrift < 1/2
       then r.dirSin * 40 else 0) := by
  refine ⟨?_, ?_, ?_, ?_, ?_⟩ <;>
    · simp only [spawnCircle]
      split_ifs <;> first | rfl | tauto

/-- C7 (amended): the pause control of the source is a toggle, not an
idempotent pause: on a running game one activation flips the paused flag,
and a second activation flips it back, restoring the state before the
first press — so two presses differ from one press whenever the game is
running. -/
theorem C7_pause_toggle_amended (s : GameState) (hrun : s.gameRunning = true) :
    pauseToggle (pauseToggle s) = s ∧
    (pauseToggle s).paused = !s.paused := by
  cases s with
  | mk circles gameRunning paused currentLevel timeLeft baseSpawnInterval
      spawnInterval score warpActive nextWarpAt warpEndAt =>
    simp only at hrun
    subst hrun
    constructor
    · simp [pauseToggle]
    · simp [pauseToggle]

/-- C7 witness: the double-toggle identity evaluated on a concrete running
round. -/
theorem C7_pause_toggle_witness :
    pauseToggle (pauseToggle (mkRunning [cNormal] 1)) = mkRunning [cNormal] 1 ∧
    (pauseToggle (mkRunning [cNormal] 1)).paused = !(mkRunning [cNormal] 1).paused :=
  C7_pause_toggle_amended (mkRunning [cNormal] 1) rfl

/-- C7 counterexample: issuing the pause command twice from a concrete
running state does not leave the state of a single pause — the second
press resumes, so the two states differ (in their paused flag). -/
theorem C7_counterexample :
    pauseToggle (pauseToggle (mkRunning [cNormal] 1)) ≠
      pauseToggle (mkRunning [cNormal] 1) := by
  simp [pauseToggle, mkRunning]

/-- C8: at level at least 6, a frame whose elapsed time reaches nextWarpAt
activates the warp: the effective interval becomes base times 0.5 and the
window is set to close at nextWarpAt plus the 3 s duration, nextWarpAt
itself unchanged. A frame at exactly that closing time deactivates the
warp, restores the effective interval to the (unchanged) base, and
advances nextWarpAt by exactly the 8 s warp interval from its prior
value, not from the current elapsed time. -/
theorem C8_warp_timing (s : GameState) (hlvl : 6 ≤ s.currentLevel)
    (hactive : s.warpActive = false) :
    (warpStep s.nextWarpAt s).warpActive = true ∧
    (warpStep s.nextWarpAt s).spawnInterval =
      s.baseSpawnInterval * timeWarpFactor ∧
    (warpStep s.nextWarpAt s).warpEndAt = s.nextWarpAt + timeWarpDuration ∧
    (warpStep s.nextWarpAt s).nextWarpAt = s.nextWarpAt ∧
    (warpStep s.nextWarpAt s).baseSpawnInterval = s.baseSpawnInterval ∧
    (warpStep (s.nextWarpAt + timeWarpDuration)
      (warpStep s.nextWarpAt s)).warpActive = false ∧
    (warpStep (s.nextWarpAt + timeWarpDuration)
      (warpStep s.nextWarpAt s)).spawnInterval = s.baseSpawnInterval ∧
    (warpStep (s.nextWarpAt + timeWarpDuration)
      (warpStep s.nextWarpAt s)).nextWarpAt =
      s.nextWarpAt + timeWarpInterval := by
  have h1 : warpStep s.nextWarpAt s =
      { s with warpActive := true
               warpEndAt := s.nextWarpAt + timeWarpDuration
               spawnInterval := s.baseSpawnInterval * timeWarpFactor } := by
    unfold warpStep
    rw [if_pos hlvl, if_pos ⟨hactive, le_rfl⟩]
  have h2 : warpStep (s.nextWarpAt + timeWarpDuration) (warpStep s.nextWarpAt s) =
      { s with warpActive := false
               warpEndAt := s.nextWarpAt + timeWarpDuration
               spawnInterval := s.baseSpawnInterval
               nextWarpAt := s.nextWarpAt + timeWarpInterval } := by
    rw [h1]
    unfold warpStep
    rw [if_pos hlvl]
    rw [if_neg (by simp)]
    rw [if_pos ⟨rfl, le_rfl⟩]
  rw [h2, h1]
  exact ⟨rfl, rfl, rfl, rfl, rfl, rfl, rfl, rfl⟩

/-- C8 witness: the warp timing evaluated on a concrete level-6 state one
frame before its first warp window at 8 s. -/
theorem C8_warp_timing_witness :
    (warpStep preWarpState.nextWarpAt preWarpState).warpActive = true ∧
    (warpStep preWarpState.nextWarpAt preWarpState).spawnInterval =
      preWarpState.baseSpawnInterval * timeWarpFactor ∧
    (warpStep preWarpState.nextWarpAt preWarpState).warpEndAt =
      preWarpState.nextWarpAt + timeWarpDuration ∧
    (warpStep preWarpState.nextWarpAt preWarpState).nextWarpAt =
      preWarpState.nextWarpAt ∧
    (warpStep preWarpState.nextWarpAt preWarpState).baseSpawnInterval =
      preWarpState.baseSpawnInterval ∧
    (warpStep (preWarpState.nextWarpAt + timeWarpDuration)
      (warpStep preWarpState.nextWarpAt preWarpState)).warpActive = false ∧
    (warpStep (preWarpState.nextWarpAt + timeWarpDuration)
      (warpStep preWarpState.nextWarpAt preWarpState)).spawnInterval =
      preWarpState.baseSpawnInterval ∧
    (warpStep (preWarpState.nextWarpAt + timeWarpDuration)
      (warpStep preWarpState.nextWarpAt preWarpState)).nextWarpAt =
      preWarpState.nextWarpAt + timeWarpInterval :=
  C8_warp_timing preWarpState (by norm_num [preWarpState]) rfl

/-- C9: the failing input evaluated. update applies a negative delta-time
unclamped: on a frame with dt = -1 s over a running round holding one
fresh circle, the round timer moves backwards from 30 to 31 and the
circle shrinks from radius 15 to -5 — the frame is applied, not clamped
or skipped, so timer, radius and state are all changed. -/
theorem C9_negative_dt_demo :
    (updateFrame 1000 1000 (-1) (mkRunning [cNormal] 1)).2 = Phase.running ∧
    (updateFrame 1000 1000 (-1) (mkRunning [cNormal] 1)).1.timeLeft = 31 ∧
    (updateFrame 1000 1000 (-1) (mkRunning [cNormal] 1)).1.circles =
      [{ cNormal with radius := -5 }] := by
  norm_num [updateFrame, warpStep, tickLoop, stepCircle, moveGrow, bounce,
    mkRunning, cNormal, jmin]

/-- C10 (amended): provided every tick in the sequence carries a
nonnegative delta-time, any sequence of spawns, ticks and clicks starting
from a collection of circles with radius at least 5 and nonnegative
growth leaves every live circle with radius at least 5: spawns enter at
radius 15, splitter children at 10 or more, growth with nonnegative dt
only increases radii, and both shockwaves floor the result at 5. A tick
with a negative delta-time breaks the bound (see the counterexample),
which is why the claim needs the nonnegative-dt proviso. -/
theorem C10_radius_invariant_amended (ops : List GOp) (cs : List Circle)
    (h0 : ∀ c ∈ cs, SafeCircle c) (hops : ∀ op ∈ ops, op.dtNonneg) :
    ∀ c ∈ applyOps ops cs, 5 ≤ c.radius := by
  intro c hc
  exact (safe_applyOps hops h0 c hc).1

/-- C10 witness: one spawn then one tick of a tenth of a second from the
empty collection leaves the grown spawn, at radius 17, above the bound. -/
theorem C10_radius_invariant_witness :
    5 ≤ (bounce 800 600 (moveGrow (1/10) (spawnCircle 1 800 600 plainRand))).radius :=
  C10_radius_invariant_amended
    [GOp.spawnOp 1 800 600 plainRand, GOp.tickOp 800 600 (1/10)] []
    (by simp)
    (by
      intro op hop
      rcases List.mem_cons.mp hop with hop | hop
      · subst hop; trivial
      · rw [List.mem_singleton.mp hop]
        show (0:ℚ) ≤ 1/10
        norm_num)
    (bounce 800 600 (moveGrow (1/10) (spawnCircle 1 800 600 plainRand)))
    (by
      show _ ∈ applyOps _ _
      rw [applyOps]
      rw [List.foldl_cons, List.foldl_cons, List.foldl_nil]
      rw [show applyOp (GOp.spawnOp 1 800 600 plainRand) [] =
        [spawnCircle 1 800 600 plainRand] from rfl]
      rw [show applyOp (GOp.tickOp 800 600 (1/10)) [spawnCircle 1 800 600 plainRand] =
        [bounce 800 600 (moveGrow (1/10) (spawnCircle 1 800 600 plainRand))] from ?_]
      · simp
      · simp only [applyOp]
        rw [tickLoop_no_fuse_eq 800 600 (1/10) [spawnCircle 1 800 600 plainRand] [] ?_ ?_]
        · simp
        · intro c hc
          rw [List.mem_singleton.mp hc]
          norm_num [spawnCircle, plainRand]
          decide
        · intro c hc
          rw [List.mem_singleton.mp hc]
          norm_num [spawnCircle, plainRand, moveGrow, jmin])

/-- C10 counterexample: a single tick with delta-time -1 s over a fresh
radius-15 circle leaves a live circle of radius -5, far below 5 — so
without restricting ticks to nonnegative delta-times the invariant is
false. -/
theorem C10_counterexample :
    applyOps [GOp.tickOp 1000 1000 (-1)] [cNormal] =
      [{ cNormal with radius := -5 }] ∧
    ¬ 5 ≤ ({ cNormal with radius := -5 } : Circle).radius := by
  norm_num [applyOps, applyOp, tickLoop, stepCircle, moveGrow, bounce,
    cNormal, jmin]

end CircleSurvival
